import Mathlib

/-!
# etcd-manage-server: the request gate of `program/http.go`

A shallow embedding of `middlewareAuth` and `middlewareEtcdClient` (file
`src/program/http.go`) together with the parts of the Go standard library
(`strconv.Atoi`, `strings.HasPrefix`, `int32` conversion) and of gin
(`Context.Next`, `Abort`, `AbortWithStatus`, `JSON`, `Set`/`Get`) they rest on.

Conventions.
* A Go `string` is its sequence of bytes (`GoString`).
* Go `int` is 64 bits wide (`strconv.IntSize = 64`).
* A Go `error` is `Option`: `none` is `nil`.
* The external collaborators (session cache, JSON decoding, permission query,
  cluster registry, client factory, the route handler) are the fields of `Env`;
  every call to one of them is recorded, in order, in `Context.trace`.
* A panic is the flag `Context.panicked`; once set, the frames above stop
  executing (only deferred calls that were already registered would run).
* `url.ParseRequestURI` is the field `Env.ParseRequestURI`: `none` is the error result, in
  which `u` is nil, and `some path` gives `u.Path`. Lines 80 and 135 discard the error, so
  reading `u.Path` on a nil `u` panics.
* Logging statements have no effect on the request and are left out.
* The chain is `middlewareAuth`, `middlewareEtcdClient`, route handler. `middlewareCORS`
  (it answers OPTIONS itself and otherwise calls `c.Next()`) and gin's recovery
  middleware stand before the chain and are not part of it.
-/

namespace EtcdManage

/-! ## Go strings and `strconv` -/

/-- A Go string: a sequence of bytes. -/
abbrev GoString := List Nat

/-- The bytes (UTF-8) of a string literal. -/
def bytes (s : String) : GoString :=
  s.toList.flatMap (fun c => (String.utf8EncodeChar c).map UInt8.toNat)

/-- Go `strings.HasPrefix`: `len(s) >= len(prefix) && s[:len(prefix)] == prefix`. -/
def HasPrefix (s pre : GoString) : Bool :=
  decide (s.length ≥ pre.length) && decide (s.take pre.length = pre)

/-- Go `strings.Split(s, sep)` for a one-byte separator `sep`: the pieces between the
separators, a single empty piece for the empty string. -/
def Split (s : GoString) (sep : Nat) : List GoString :=
  match s with
  | [] => [[]]
  | c :: cs =>
    if c = sep then [] :: Split cs sep
    else
      match Split cs sep with
      | [] => [[c]]
      | x :: xs => (c :: x) :: xs

/-- The two errors of `strconv` (`*NumError` with `Err` one of these). -/
inductive NumError where
  | ErrSyntax
  | ErrRange
  deriving DecidableEq, Repr

/-- Largest `uint64`. -/
def maxUint64 : Nat := 2 ^ 64 - 1

/-- The digit loop of `strconv.ParseUint(s, 10, 64)`: `n` is the value so far.
On overflow it returns at once, without looking at the remaining bytes. -/
def parseUintLoop : List Nat → Nat → Nat × Option NumError
  | [], n => (n, none)
  | c :: cs, n =>
    if 48 ≤ c ∧ c ≤ 57 then
      if n ≥ maxUint64 / 10 + 1 then (maxUint64, some NumError.ErrRange)
      else
        let n1 := n * 10 + (c - 48)
        if n1 > maxUint64 then (maxUint64, some NumError.ErrRange)
        else parseUintLoop cs n1
    else (0, some NumError.ErrSyntax)

/-- Go `strconv.ParseUint(s, 10, 64)`. -/
def ParseUint (s : GoString) : Nat × Option NumError :=
  if s = [] then (0, some NumError.ErrSyntax) else parseUintLoop s 0

/-- Go `strconv.ParseInt(s, 10, 0)` with 64-bit `int`. -/
def ParseInt (s : GoString) : Int × Option NumError :=
  match s with
  | [] => (0, some NumError.ErrSyntax)
  | c0 :: rest =>
    let neg := c0 = 45
    let s1 := if c0 = 43 ∨ c0 = 45 then rest else s
    match ParseUint s1 with
    | (_, some NumError.ErrSyntax) => (0, some NumError.ErrSyntax)
    | (un, _) =>
      let cutoff : Nat := 2 ^ 63
      if ¬ neg ∧ un ≥ cutoff then ((cutoff : Int) - 1, some NumError.ErrRange)
      else if neg ∧ un > cutoff then (-(cutoff : Int), some NumError.ErrRange)
      else (if neg then -(un : Int) else (un : Int), none)

/-- The fast-path loop of `strconv.Atoi`: `ch -= '0'; if ch > 9 { error }` on bytes. -/
def atoiFast : List Nat → Int → Option Int
  | [], n => some n
  | ch :: cs, n =>
    if (ch + 256 - 48) % 256 > 9 then none
    else atoiFast cs (n * 10 + ((ch + 256 - 48) % 256 : Nat))

/-- Go `strconv.Atoi` (64-bit): the fast path for `0 < len(s) < 19`, else `ParseInt`. -/
def Atoi (s : GoString) : Int × Option NumError :=
  if 0 < s.length ∧ s.length < 19 then
    match s with
    | [] => (0, some NumError.ErrSyntax)
    | c0 :: rest =>
      let s1 := if c0 = 45 ∨ c0 = 43 then rest else s
      if (c0 = 45 ∨ c0 = 43) ∧ s1.length < 1 then (0, some NumError.ErrSyntax)
      else
        match atoiFast s1 0 with
        | none => (0, some NumError.ErrSyntax)
        | some n => (if c0 = 45 then -n else n, none)
  else ParseInt s

/-- Go conversion `int32(n)` of an `int`: keep the low 32 bits, two's complement. -/
def int32 (n : Int) : Int := (n + 2 ^ 31) % 2 ^ 32 - 2 ^ 31

/-! ## Data model -/

/-- Modelled from the spec: `models.UsersModel` is declared outside `http.go`; the
spec's Identity is {userId, roleId, displayName}; `http.go` reads `RoleId` only. -/
structure UsersModel where
  Id : Int
  RoleId : Int
  Username : String
  deriving DecidableEq, Repr

/-- The fields of `models.EtcdServersModel` that `middlewareEtcdClient` reads. -/
structure EtcdServersModel where
  Version : GoString
  Address : GoString
  TlsEnable : GoString
  CertFile : GoString
  KeyFile : GoString
  CaFile : GoString
  Username : GoString
  Password : GoString
  deriving DecidableEq, Repr

/-- The `model.Config` literal built at lines 190-200. -/
structure Config where
  EtcdId : Int
  Version : GoString
  Address : List GoString
  TlsEnable : Bool
  CertFile : GoString
  KeyFile : GoString
  CaFile : GoString
  Username : GoString
  Password : GoString
  deriving DecidableEq, Repr

/-- A client value of interface type: `none` is the nil interface, `some h` a live handle. -/
abbrev Client := Option Nat

/-- The error of the permission query: `gorm.ErrRecordNotFound` or any other error. -/
inductive DbError where
  | ErrRecordNotFound
  | other (msg : String)
  deriving DecidableEq, Repr

/-- How the downstream route handler leaves: it returns after writing a response,
it writes an error response and aborts, or it panics. -/
inductive HandlerExit where
  | returns (status : Nat) (body : String)
  | aborts (status : Nat) (body : String)
  | panics
  deriving DecidableEq, Repr

/-- One piece written to the response body. -/
inductive Chunk where
  | jsonMsg (msg : String)
  | raw (data : String)
  deriving DecidableEq, Repr

/-- The calls to external collaborators, and the dispatch of the route handler. -/
inductive Event where
  | cacheGet (key : GoString)
  | permQuery (roleId etcdId typ : Int) (err : Option DbError)
  | firstById (id : Int)
  | newClient (cfg : Config) (client : Client) (err : Option String)
  | handler (client : Option Client)
  | close (client : Client)
  deriving DecidableEq, Repr

/-- The external collaborators of one request. `FirstById` is taken to return a record also
when it returns an error (the zero profile of the spec). -/
structure Env where
  ParseRequestURI : GoString → Option GoString
  GetLoginKey : GoString → GoString
  cacheGet : GoString → Option GoString
  jsonUnmarshal : GoString → Option UsersModel
  FirstByRoleIdAndEtcdServerIdAndType : Int → Int → Int → Option DbError
  FirstById : Int → EtcdServersModel × Option String
  NewClientByConfig : Config → Client × Option String
  handler : Option UsersModel → Option Client → HandlerExit

/-- What the middlewares read of the request. -/
structure Request where
  RequestURI : GoString
  Method : GoString
  Token : GoString
  EtcdID : GoString
  deriving DecidableEq, Repr

/-- The gin context of one request, with its response writer and the trace. -/
structure Context where
  index : Int
  userinfo : Option UsersModel
  CLIENT : Option Client
  status : Nat
  written : Bool
  body : List Chunk
  trace : List Event
  panicked : Bool
  deriving DecidableEq, Repr

/-! ## gin -/

/-- gin `abortIndex` (`math.MaxInt8 / 2`). -/
def abortIndex : Int := 63

/-- A fresh context (`Context.reset`): index -1, status 200, nothing written. -/
def Context.reset : Context :=
  ⟨-1, none, none, 200, false, [], [], false⟩

/-- Record a collaborator call. -/
def Context.emit (c : Context) (e : Event) : Context :=
  { c with trace := c.trace ++ [e] }

/-- gin `Context.Abort`: `c.index = abortIndex`. -/
def Context.Abort (c : Context) : Context :=
  { c with index := abortIndex }

/-- gin `Context.IsAborted`. -/
def Context.IsAborted (c : Context) : Bool := decide (c.index ≥ abortIndex)

/-- gin `Context.Status`: ignored (with a warning) once the header is written. -/
def Context.Status (c : Context) (code : Nat) : Context :=
  { c with status :=
      if code > 0 ∧ c.status ≠ code then (if c.written then c.status else code)
      else c.status }

/-- gin `Context.AbortWithStatus`: `Status(code)`, `WriteHeaderNow()`, `Abort()`. -/
def Context.AbortWithStatus (c : Context) (code : Nat) : Context :=
  ({ c.Status code with written := true }).Abort

/-- gin `c.JSON(code, gin.H{"msg": msg})`: set the status, write header and body. -/
def Context.JSON (c : Context) (code : Nat) (msg : String) : Context :=
  let c1 := c.Status code
  { c1 with written := true, body := c1.body ++ [Chunk.jsonMsg msg] }

/-- A response written by the route handler. -/
def Context.write (c : Context) (code : Nat) (data : String) : Context :=
  let c1 := c.Status code
  { c1 with written := true, body := c1.body ++ [Chunk.raw data] }

/-- A gin handler; its first argument is `c.Next`. `none`: out of fuel. -/
abbrev HandlerFunc := (Context → Option Context) → Context → Option Context

/-- The loop of gin `Context.Next`:
`for c.index < len(c.handlers) { c.handlers[c.index](c); c.index++ }`.
A panicking handler unwinds the loop. -/
def nextLoop : Nat → List HandlerFunc → Context → Option Context
  | 0, hs, c => if c.index < hs.length then none else some c
  | fuel + 1, hs, c =>
    if c.index < hs.length then
      match hs.get? c.index.toNat with
      | none => some c
      | some h =>
        match h (fun c1 => nextLoop fuel hs { c1 with index := c1.index + 1 }) c with
        | none => none
        | some c2 =>
          if c2.panicked then some c2
          else nextLoop fuel hs { c2 with index := c2.index + 1 }
    else some c

/-- gin `Context.Next`: `c.index++` and the loop. -/
def Next (fuel : Nat) (hs : List HandlerFunc) (c : Context) : Option Context :=
  nextLoop fuel hs { c with index := c.index + 1 }

/-! ## `program/http.go` -/

/-- The path test of `middlewareAuth` (line 81): none of the three prefixes. -/
def authRequired (path : GoString) : Bool :=
  (HasPrefix path (bytes "/v1/passport") == false)
    && (HasPrefix path (bytes "/ui") == false)
    && (HasPrefix path (bytes "/v1/upload") == false)

/-- The path test of `middlewareEtcdClient` (line 136): one of the four prefixes. -/
def clientExempt (path : GoString) : Bool :=
  (HasPrefix path (bytes "/v1/passport") == true)
    || (HasPrefix path (bytes "/ui") == true)
    || (HasPrefix path (bytes "/v1/upload") == true)
    || (HasPrefix path (bytes "/v1/server") == true)

/-- Lines 78-108, `middlewareAuth`. -/
def middlewareAuth (w : Env) (r : Request) : HandlerFunc := fun _ c =>
  match w.ParseRequestURI r.RequestURI with
  | none => some { c with panicked := true }
  | some path =>
    if authRequired path then
      let token := r.Token
      if token = [] then some (c.AbortWithStatus 401)
      else
        let key := w.GetLoginKey token
        let c1 := c.emit (Event.cacheGet key)
        match w.cacheGet key with
        | none => some (c1.AbortWithStatus 401)
        | some val =>
          match w.jsonUnmarshal val with
          | none => some (c1.AbortWithStatus 401)
          | some user => some { c1 with userinfo := some user }
    else some c

/-- The operation type of lines 163-166: 0 for method "GET", 1 otherwise. -/
def opType (method : GoString) : Int :=
  if method = bytes "GET" then 0 else 1

/-- The `model.Config` of lines 190-200. -/
def mkConfig (etcdIdNum : Int) (etcdOne : EtcdServersModel) : Config :=
  { EtcdId := int32 etcdIdNum
    Version := etcdOne.Version
    Address := Split etcdOne.Address 44
    TlsEnable := decide (etcdOne.TlsEnable = bytes "true")
    CertFile := etcdOne.CertFile
    KeyFile := etcdOne.KeyFile
    CaFile := etcdOne.CaFile
    Username := etcdOne.Username
    Password := etcdOne.Password }

/-- The deferred function of lines 213-219: `client.Close()`; on the nil client the call is a
nil dereference and panics. The error that `Close` returns is only logged. -/
def deferredClose (client : Client) (c : Context) : Context :=
  match client with
  | none => { c.emit (Event.close none) with panicked := true }
  | some h => c.emit (Event.close (some h))

/-- Lines 132-221, `middlewareEtcdClient`. -/
def middlewareEtcdClient (w : Env) (r : Request) : HandlerFunc := fun next c =>
  match w.ParseRequestURI r.RequestURI with
  | none => some { c with panicked := true }
  | some path =>
    if clientExempt path then some c
    else
      let etcdId := r.EtcdID
      if etcdId = [] then some c
      else
        let etcdIdNum := (Atoi etcdId).1
        if etcdIdNum = 0 then some ((c.JSON 400 "请选择Etcd服务").Abort)
        else
          match c.userinfo with
          | none => some (c.AbortWithStatus 401)
          | some userinfo =>
            let typ := opType r.Method
            let err := w.FirstByRoleIdAndEtcdServerIdAndType userinfo.RoleId
              (int32 etcdIdNum) (int32 typ)
            let c1 := c.emit (Event.permQuery userinfo.RoleId (int32 etcdIdNum) (int32 typ) err)
            match err with
            | some e =>
              if e = DbError.ErrRecordNotFound then some ((c1.JSON 400 "无权限进行此操作").Abort)
              else some ((c1.JSON 400 "数据库查询错误").Abort)
            | none =>
              let etcdOne := (w.FirstById (int32 etcdIdNum)).1
              let c2 := c1.emit (Event.firstById (int32 etcdIdNum))
              let cfg := mkConfig etcdIdNum etcdOne
              let res := w.NewClientByConfig cfg
              let client := res.1
              let c3 := c2.emit (Event.newClient cfg client res.2)
              let c4 := match res.2 with
                | some e => (c3.JSON 400 e).Abort
                | none => c3
              let c5 := { c4 with CLIENT := some client }
              match next c5 with
              | none => none
              | some c6 =>
                if c6.panicked then some c6
                else some (deferredClose client c6)

/-- The route handler behind the two middlewares. -/
def routeHandler (w : Env) : HandlerFunc := fun _ c =>
  let c1 := c.emit (Event.handler c.CLIENT)
  match w.handler c.userinfo c.CLIENT with
  | HandlerExit.returns code data => some (c1.write code data)
  | HandlerExit.aborts code data => some ((c1.write code data).Abort)
  | HandlerExit.panics => some { c1 with panicked := true }

/-- The handler chain: `middlewareAuth`, `middlewareEtcdClient` (lines 31-32), the route handler. -/
def chain (w : Env) (r : Request) : List HandlerFunc :=
  [middlewareAuth w r, middlewareEtcdClient w r, routeHandler w]

/-- One request through the chain: a fresh context and `c.Next()`. -/
def serve (w : Env) (r : Request) : Option Context :=
  Next (chain w r).length (chain w r) Context.reset

/-- The cluster id `int32(etcdIdNum)` that lines 168, 185 and 191 pass on. -/
def clusterId (r : Request) : Int := int32 (Atoi r.EtcdID).1

/-- The config that line 201 hands to the factory. -/
def boundConfig (w : Env) (r : Request) : Config :=
  mkConfig (Atoi r.EtcdID).1 (w.FirstById (int32 (Atoi r.EtcdID).1)).1

/-! ## Fixtures -/

/-- A cluster record. -/
def profile0 : EtcdServersModel :=
  ⟨bytes "3", bytes "127.0.0.1:2379,127.0.0.1:2380", bytes "false", [], [], [], [], []⟩

/-- The config built from `profile0` for cluster id `id`. -/
def config0 (id : Int) : Config :=
  ⟨id, bytes "3", [bytes "127.0.0.1:2379", bytes "127.0.0.1:2380"], false, [], [], [], [], []⟩

/-- A logged-in user with role 7. -/
def user0 : UsersModel := ⟨1, 7, "admin"⟩

/-- A stand-in for `url.ParseRequestURI` on the request URIs used below: a URI that starts
with a slash and has no query and no escape is its own path; a URI without scheme and without
leading slash, such as the `127.0.0.1:443` of a CONNECT request, is an error. -/
def parseFixture (raw : GoString) : Option GoString :=
  if HasPrefix raw (bytes "/") then some raw else none

/-- One session (token "tok"), every permission granted, a factory that returns client 1,
a route handler that answers 200. -/
def envGrantAll : Env :=
  { ParseRequestURI := parseFixture
    GetLoginKey := fun t => bytes "login:" ++ t
    cacheGet := fun k => if k = bytes "login:tok" then some (bytes "session-of-admin") else none
    jsonUnmarshal := fun v => if v = bytes "session-of-admin" then some user0 else none
    FirstByRoleIdAndEtcdServerIdAndType := fun _ _ _ => none
    FirstById := fun _ => (profile0, none)
    NewClientByConfig := fun _ => (some 1, none)
    handler := fun _ _ => HandlerExit.returns 200 "ok" }

/-- As `envGrantAll`, with a route handler that panics. -/
def envPanic : Env :=
  { envGrantAll with handler := fun _ _ => HandlerExit.panics }

/-- As `envGrantAll`, with a factory that fails: nil client and an error. -/
def envDialFail : Env :=
  { envGrantAll with NewClientByConfig := fun _ => (none, some "dial tcp: connection refused") }

/-- As `envGrantAll`, with no stored grant at all. -/
def envNoGrant : Env :=
  { envGrantAll with
    FirstByRoleIdAndEtcdServerIdAndType := fun _ _ _ => some DbError.ErrRecordNotFound }

/-- As `envGrantAll`, with the single grant (role 7, cluster 5, type `typ`). -/
def envOnly (typ : Int) : Env :=
  { envGrantAll with
    FirstByRoleIdAndEtcdServerIdAndType := fun role id t =>
      if role = 7 ∧ id = 5 ∧ t = typ then none else some DbError.ErrRecordNotFound }

/-- A request with token "tok". -/
def req (uri method etcdId : String) : Request :=
  ⟨bytes uri, bytes method, bytes "tok", bytes etcdId⟩

/-- A request without a Token header. -/
def reqNoToken (uri method etcdId : String) : Request :=
  ⟨bytes uri, bytes method, [], bytes etcdId⟩

/-! ## Shared lemmas -/

/-- A path outside the four prefixes of `middlewareEtcdClient` is outside the three of
`middlewareAuth`. -/
theorem authRequired_of_not_clientExempt (p : GoString) (h : clientExempt p = false) :
    authRequired p = true := by
  simp only [clientExempt, authRequired] at *
  revert h
  cases HasPrefix p (bytes "/v1/passport") <;> cases HasPrefix p (bytes "/ui") <;>
    cases HasPrefix p (bytes "/v1/upload") <;> cases HasPrefix p (bytes "/v1/server") <;> simp

/-- The operation type is 0 or 1, so `int32` leaves it unchanged. -/
theorem int32_opType (m : GoString) : int32 (opType m) = opType m := by
  unfold opType
  split <;> decide

set_option maxHeartbeats 4000000 in
/-- The trace of a run: either no client was built and no handler saw a client, or the run is
the bound path. -/
theorem serve_cases (w : Env) (r : Request) :
    ∃ c, serve w r = some c ∧
      (((∀ cfg cl e, Event.newClient cfg cl e ∉ c.trace) ∧ (∀ cl, Event.handler (some cl) ∉ c.trace))
      ∨ (∃ val user cfg,
          w.cacheGet (w.GetLoginKey r.Token) = some val ∧ w.jsonUnmarshal val = some user ∧
          w.FirstByRoleIdAndEtcdServerIdAndType user.RoleId (int32 (Atoi r.EtcdID).1)
            (opType r.Method) = none ∧
          cfg = mkConfig (Atoi r.EtcdID).1 (w.FirstById (int32 (Atoi r.EtcdID).1)).1 ∧
          c.trace.take 4 = [Event.cacheGet (w.GetLoginKey r.Token),
            Event.permQuery user.RoleId (int32 (Atoi r.EtcdID).1) (opType r.Method) none,
            Event.firstById (int32 (Atoi r.EtcdID).1),
            Event.newClient cfg (w.NewClientByConfig cfg).1 (w.NewClientByConfig cfg).2] ∧
          (c.trace.drop 4 = [Event.close (w.NewClientByConfig cfg).1]
            ∨ ((w.NewClientByConfig cfg).2 = none ∧
              (c.trace.drop 4 = [Event.handler (some (w.NewClientByConfig cfg).1)]
              ∨ c.trace.drop 4 = [Event.handler (some (w.NewClientByConfig cfg).1),
                  Event.close (w.NewClientByConfig cfg).1]))))) := by
  cases hparse : w.ParseRequestURI r.RequestURI with
  | none =>
    simp [serve, Next, nextLoop, chain, middlewareAuth, hparse, Context.reset]
  | some path =>
  cases ha : authRequired path
  · -- exempt from identity resolution, hence from client binding
    have hp : clientExempt path = true := by
      cases hp : clientExempt path
      · rw [authRequired_of_not_clientExempt _ hp] at ha; cases ha
      · rfl
    cases hh : w.handler none none <;>
      simp [serve, Next, nextLoop, chain, hparse, middlewareAuth, middlewareEtcdClient, routeHandler,
        ha, hp, hh, Context.reset, Context.emit, Context.write, Context.Abort, Context.Status,
        abortIndex]
  · by_cases htok : r.Token = []
    · simp [serve, Next, nextLoop, chain, hparse, middlewareAuth, ha, htok, Context.reset,
        Context.AbortWithStatus, Context.Abort, Context.Status, abortIndex]
    · cases hs : w.cacheGet (w.GetLoginKey r.Token) with
      | none =>
        simp [serve, Next, nextLoop, chain, hparse, middlewareAuth, ha, htok, hs, Context.reset,
          Context.emit, Context.AbortWithStatus, Context.Abort, Context.Status, abortIndex]
      | some val =>
        cases hu : w.jsonUnmarshal val with
        | none =>
          simp [serve, Next, nextLoop, chain, hparse, middlewareAuth, ha, htok, hs, hu, Context.reset,
            Context.emit, Context.AbortWithStatus, Context.Abort, Context.Status, abortIndex]
        | some user =>
          cases hp : clientExempt path
          swap
          · cases hh : w.handler (some user) none <;>
              simp [serve, Next, nextLoop, chain, hparse, middlewareAuth, middlewareEtcdClient,
                routeHandler, ha, hp, htok, hs, hu, hh, Context.reset, Context.emit,
                Context.write, Context.Abort, Context.Status, abortIndex]
          by_cases hid : r.EtcdID = []
          · cases hh : w.handler (some user) none <;>
              simp [serve, Next, nextLoop, chain, hparse, middlewareAuth, middlewareEtcdClient,
                routeHandler, ha, hp, htok, hs, hu, hh, hid, Context.reset, Context.emit,
                Context.write, Context.Abort, Context.Status, abortIndex]
          by_cases hz : (Atoi r.EtcdID).1 = 0
          · simp [serve, Next, nextLoop, chain, hparse, middlewareAuth, middlewareEtcdClient,
              ha, hp, htok, hs, hu, hid, hz, Context.reset, Context.emit, Context.JSON,
              Context.Abort, Context.Status, abortIndex]
          cases hq : w.FirstByRoleIdAndEtcdServerIdAndType user.RoleId (int32 (Atoi r.EtcdID).1)
              (opType r.Method) with
          | some e =>
            by_cases he : e = DbError.ErrRecordNotFound <;>
              simp [serve, Next, nextLoop, chain, hparse, middlewareAuth, middlewareEtcdClient,
                ha, hp, htok, hs, hu, hid, hz, hq, he, int32_opType, Context.reset, Context.emit,
                Context.JSON, Context.Abort, Context.Status, abortIndex]
          | none =>
            generalize hcfg : mkConfig (Atoi r.EtcdID).1 (w.FirstById (int32 (Atoi r.EtcdID).1)).1 = cfg
            generalize hn : (Atoi r.EtcdID).1 = n at *
            rcases hf : w.NewClientByConfig cfg with ⟨cl, err⟩
            cases err with
            | some e =>
              cases cl <;>
              simp [serve, Next, nextLoop, chain, hparse, middlewareAuth, middlewareEtcdClient,
                deferredClose, ha, hp, htok, hs, hu, hid, hz, hq, hf, int32_opType, hcfg, hn,
                Context.reset, Context.emit, Context.JSON, Context.Abort, Context.Status,
                abortIndex]
            | none =>
              cases hh : w.handler (some user) (some cl) <;> cases cl <;>
              simp [serve, Next, nextLoop, chain, hparse, middlewareAuth, middlewareEtcdClient,
                routeHandler, deferredClose, ha, hp, htok, hs, hu, hid, hz, hq, hf, hh, hcfg, hn,
                int32_opType, Context.reset, Context.emit, Context.write, Context.Abort,
                Context.Status, abortIndex]

set_option maxHeartbeats 4000000 in
/-- A request that reaches the permission query and gets an error: 400, abort, and the trace
stops at the query. -/
theorem serve_denied (w : Env) (r : Request) (val : GoString) (user : UsersModel) (e : DbError)
    (path : GoString) (hparse : w.ParseRequestURI r.RequestURI = some path)
    (hpath : clientExempt path = false) (htok : r.Token ≠ [])
    (hs : w.cacheGet (w.GetLoginKey r.Token) = some val)
    (hu : w.jsonUnmarshal val = some user)
    (hid : r.EtcdID ≠ []) (hnum : (Atoi r.EtcdID).1 ≠ 0)
    (hq : w.FirstByRoleIdAndEtcdServerIdAndType user.RoleId (clusterId r) (opType r.Method)
      = some e) :
    ∃ c, serve w r = some c ∧ c.status = 400 ∧ c.written = true ∧
      c.body = [Chunk.jsonMsg
        (if e = DbError.ErrRecordNotFound then "无权限进行此操作" else "数据库查询错误")] ∧
      c.IsAborted = true ∧
      c.trace = [Event.cacheGet (w.GetLoginKey r.Token),
        Event.permQuery user.RoleId (clusterId r) (opType r.Method) (some e)] := by
  have ha := authRequired_of_not_clientExempt _ hpath
  unfold clusterId at *
  by_cases he : e = DbError.ErrRecordNotFound <;>
    simp [serve, Next, nextLoop, chain, hparse, middlewareAuth, middlewareEtcdClient,
      ha, hpath, htok, hs, hu, hid, hnum, hq, he, int32_opType, Context.reset, Context.emit,
      Context.JSON, Context.Abort, Context.Status, Context.IsAborted, abortIndex]

set_option maxHeartbeats 4000000 in
/-- A request that reaches the permission query and gets nil: registry, factory, then either the
factory error response or the dispatch of the route handler. -/
theorem serve_granted (w : Env) (r : Request) (val : GoString) (user : UsersModel)
    (path : GoString) (hparse : w.ParseRequestURI r.RequestURI = some path)
    (hpath : clientExempt path = false) (htok : r.Token ≠ [])
    (hs : w.cacheGet (w.GetLoginKey r.Token) = some val)
    (hu : w.jsonUnmarshal val = some user)
    (hid : r.EtcdID ≠ []) (hnum : (Atoi r.EtcdID).1 ≠ 0)
    (hq : w.FirstByRoleIdAndEtcdServerIdAndType user.RoleId (clusterId r) (opType r.Method)
      = none) :
    ∃ c, serve w r = some c ∧
      c.trace.take 4 = [Event.cacheGet (w.GetLoginKey r.Token),
        Event.permQuery user.RoleId (clusterId r) (opType r.Method) none,
        Event.firstById (clusterId r),
        Event.newClient (boundConfig w r) (w.NewClientByConfig (boundConfig w r)).1
          (w.NewClientByConfig (boundConfig w r)).2] ∧
      (∀ e, (w.NewClientByConfig (boundConfig w r)).2 = some e →
        c.status = 400 ∧ c.written = true ∧ c.body = [Chunk.jsonMsg e] ∧ c.IsAborted = true ∧
        c.trace.drop 4 = [Event.close (w.NewClientByConfig (boundConfig w r)).1]) ∧
      ((w.NewClientByConfig (boundConfig w r)).2 = none →
        c.trace.drop 4 = [Event.handler (some (w.NewClientByConfig (boundConfig w r)).1)] ∨
        c.trace.drop 4 = [Event.handler (some (w.NewClientByConfig (boundConfig w r)).1),
          Event.close (w.NewClientByConfig (boundConfig w r)).1]) := by
  have ha := authRequired_of_not_clientExempt _ hpath
  unfold clusterId at *
  unfold boundConfig
  generalize hcfg : mkConfig (Atoi r.EtcdID).1 (w.FirstById (int32 (Atoi r.EtcdID).1)).1 = cfg
  generalize hn : (Atoi r.EtcdID).1 = n at *
  rcases hf : w.NewClientByConfig cfg with ⟨cl, err⟩
  cases err with
  | some e =>
    cases cl <;>
    simp [serve, Next, nextLoop, chain, hparse, middlewareAuth, middlewareEtcdClient,
      deferredClose, ha, hpath, htok, hs, hu, hid, hnum, hq, hf, int32_opType, hcfg, hn,
      Context.reset, Context.emit, Context.JSON, Context.Abort, Context.Status,
      Context.IsAborted, abortIndex]
  | none =>
    cases hh : w.handler (some user) (some cl) <;> cases cl <;>
    simp [serve, Next, nextLoop, chain, hparse, middlewareAuth, middlewareEtcdClient,
      routeHandler, deferredClose, ha, hpath, htok, hs, hu, hid, hnum, hq, hf, hh, hcfg, hn,
      int32_opType, Context.reset, Context.emit, Context.write, Context.Abort,
      Context.Status, abortIndex]

/-- A value within the `int32` range is unchanged by the conversion. -/
theorem int32_of_range (n : Int) (hlo : -2 ^ 31 ≤ n) (hhi : n < 2 ^ 31) : int32 n = n := by
  unfold int32
  rw [Int.emod_eq_of_lt (by omega) (by omega)]
  omega

set_option maxHeartbeats 4000000 in
/-- A request under one of the four prefixes of line 136: the only collaborator call is the
session lookup of `middlewareAuth`, and the route handler sees no client. -/
theorem serve_clientExempt (w : Env) (r : Request) (path : GoString)
    (hparse : w.ParseRequestURI r.RequestURI = some path) (hp : clientExempt path = true) :
    ∃ c, serve w r = some c ∧
      ∀ ev ∈ c.trace, ev = Event.cacheGet (w.GetLoginKey r.Token) ∨ ev = Event.handler none := by
  cases ha : authRequired path
  · cases hh : w.handler none none <;>
      simp [serve, Next, nextLoop, chain, hparse, middlewareAuth, middlewareEtcdClient, routeHandler,
        ha, hp, hh, Context.reset, Context.emit, Context.write, Context.Abort, Context.Status,
        abortIndex]
  · by_cases htok : r.Token = []
    · simp [serve, Next, nextLoop, chain, hparse, middlewareAuth, ha, htok, Context.reset,
        Context.AbortWithStatus, Context.Abort, Context.Status, abortIndex]
    · cases hs : w.cacheGet (w.GetLoginKey r.Token) with
      | none =>
        simp [serve, Next, nextLoop, chain, hparse, middlewareAuth, ha, htok, hs, Context.reset,
          Context.emit, Context.AbortWithStatus, Context.Abort, Context.Status, abortIndex]
      | some val =>
        cases hu : w.jsonUnmarshal val with
        | none =>
          simp [serve, Next, nextLoop, chain, hparse, middlewareAuth, ha, htok, hs, hu, Context.reset,
            Context.emit, Context.AbortWithStatus, Context.Abort, Context.Status, abortIndex]
        | some user =>
          cases hh : w.handler (some user) none <;>
            simp [serve, Next, nextLoop, chain, hparse, middlewareAuth, middlewareEtcdClient,
              routeHandler, ha, hp, htok, hs, hu, hh, Context.reset, Context.emit,
              Context.write, Context.Abort, Context.Status, abortIndex]

set_option maxHeartbeats 4000000 in
/-- A request that passes authorization, gets a live client from the factory, and whose route
handler returns or aborts without panicking: one factory call, the dispatch, one `Close` on the
client the factory returned. -/
theorem close_once_when_handler_returns (w : Env) (r : Request) (val : GoString)
    (user : UsersModel) (h : Nat)
    (path : GoString) (hparse : w.ParseRequestURI r.RequestURI = some path)
    (hpath : clientExempt path = false) (htok : r.Token ≠ [])
    (hs : w.cacheGet (w.GetLoginKey r.Token) = some val)
    (hu : w.jsonUnmarshal val = some user)
    (hid : r.EtcdID ≠ []) (hnum : (Atoi r.EtcdID).1 ≠ 0)
    (hq : w.FirstByRoleIdAndEtcdServerIdAndType user.RoleId (clusterId r) (opType r.Method)
      = none)
    (hf : w.NewClientByConfig (boundConfig w r) = (some h, none))
    (hh : w.handler (some user) (some (some h)) ≠ HandlerExit.panics) :
    ∃ c, serve w r = some c ∧ c.panicked = false ∧
      c.trace = [Event.cacheGet (w.GetLoginKey r.Token),
        Event.permQuery user.RoleId (clusterId r) (opType r.Method) none,
        Event.firstById (clusterId r),
        Event.newClient (boundConfig w r) (some h) none,
        Event.handler (some (some h)), Event.close (some h)] := by
  have ha := authRequired_of_not_clientExempt _ hpath
  unfold clusterId at *
  unfold boundConfig at *
  generalize hcfg : mkConfig (Atoi r.EtcdID).1 (w.FirstById (int32 (Atoi r.EtcdID).1)).1 = cfg
    at *
  generalize hn : (Atoi r.EtcdID).1 = n at *
  cases hx : w.handler (some user) (some (some h)) with
  | panics => exact absurd hx hh
  | returns code data =>
    simp [serve, Next, nextLoop, chain, hparse, middlewareAuth, middlewareEtcdClient,
      routeHandler, deferredClose, ha, hpath, htok, hs, hu, hid, hnum, hq, hf, hx, hcfg, hn,
      int32_opType, Context.reset, Context.emit, Context.write, Context.Abort,
      Context.Status, abortIndex]
  | aborts code data =>
    simp [serve, Next, nextLoop, chain, hparse, middlewareAuth, middlewareEtcdClient,
      routeHandler, deferredClose, ha, hpath, htok, hs, hu, hid, hnum, hq, hf, hx, hcfg, hn,
      int32_opType, Context.reset, Context.emit, Context.write, Context.Abort,
      Context.Status, abortIndex]

/-- A path under /v1/server is under none of the three prefixes of line 81. -/
theorem authRequired_of_server_prefix (p : GoString)
    (h : HasPrefix p (bytes "/v1/server") = true) : authRequired p = true := by
  have hb : bytes "/v1/server" = [47, 118, 49, 47, 115, 101, 114, 118, 101, 114] := by decide
  have hb1 : bytes "/v1/passport" =
      [47, 118, 49, 47, 112, 97, 115, 115, 112, 111, 114, 116] := by decide
  have hb2 : bytes "/ui" = [47, 117, 105] := by decide
  have hb3 : bytes "/v1/upload" = [47, 118, 49, 47, 117, 112, 108, 111, 97, 100] := by decide
  simp only [HasPrefix, hb, Bool.and_eq_true, decide_eq_true_eq, List.length_cons,
    List.length_nil] at h
  obtain ⟨-, ht⟩ := h
  have h3 : p.take 3 = [47, 118, 49] := by
    have h1 := congrArg (List.take 3) ht
    simpa [List.take_take] using h1
  have e1 : HasPrefix p (bytes "/v1/passport") = false := by
    rw [Bool.eq_false_iff]
    intro hc
    simp only [HasPrefix, hb1, Bool.and_eq_true, decide_eq_true_eq, List.length_cons,
      List.length_nil] at hc
    have h1 := congrArg (List.take 10) hc.2
    simp [List.take_take] at h1
    rw [ht] at h1
    simp at h1
  have e2 : HasPrefix p (bytes "/ui") = false := by
    rw [Bool.eq_false_iff]
    intro hc
    simp only [HasPrefix, hb2, Bool.and_eq_true, decide_eq_true_eq, List.length_cons,
      List.length_nil] at hc
    have h1 := hc.2
    simp at h1
    rw [h3] at h1
    simp at h1
  have e3 : HasPrefix p (bytes "/v1/upload") = false := by
    rw [Bool.eq_false_iff]
    intro hc
    simp only [HasPrefix, hb3, Bool.and_eq_true, decide_eq_true_eq, List.length_cons,
      List.length_nil] at hc
    have h1 := hc.2
    simp at h1
    rw [ht] at h1
    simp at h1
  simp [authRequired, e1, e2, e3]

/-- A request whose URI `url.ParseRequestURI` rejects: line 81 reads `u.Path` on the nil `u`
and panics before any response is written. -/
theorem serve_unparsed (w : Env) (r : Request) (hparse : w.ParseRequestURI r.RequestURI = none) :
    ∃ c, serve w r = some c ∧ c.panicked = true ∧ c.written = false ∧ c.status = 200 ∧
      c.trace = [] := by
  simp [serve, Next, nextLoop, chain, middlewareAuth, hparse, Context.reset]

/-! ## Claims -/

/-- C1: whenever the client factory is called with a config for cluster id `cfg.EtcdId`, the
permission query was made earlier in the same run with the RoleId of the user resolved from the
session, that same cluster id and the operation type of the request method, and returned nil;
and the route handler is dispatched with a CLIENT in context only after such a granted query and
a factory call that returned that client without error. -/
theorem C1_client_only_after_grant (w : Env) (r : Request) :
    ∃ c, serve w r = some c ∧
      (∀ i cfg cl e, c.trace[i]? = some (Event.newClient cfg cl e) →
        ∃ val user, ∃ j : Nat, j < i ∧
          w.cacheGet (w.GetLoginKey r.Token) = some val ∧ w.jsonUnmarshal val = some user ∧
          c.trace[j]? = some (Event.permQuery user.RoleId cfg.EtcdId (opType r.Method) none) ∧
          w.FirstByRoleIdAndEtcdServerIdAndType user.RoleId cfg.EtcdId (opType r.Method) = none) ∧
      (∀ i cl, c.trace[i]? = some (Event.handler (some cl)) →
        ∃ val user cfg, ∃ j k : Nat, k < j ∧ j < i ∧
          w.cacheGet (w.GetLoginKey r.Token) = some val ∧ w.jsonUnmarshal val = some user ∧
          c.trace[j]? = some (Event.newClient cfg cl none) ∧
          w.NewClientByConfig cfg = (cl, none) ∧
          c.trace[k]? = some (Event.permQuery user.RoleId cfg.EtcdId (opType r.Method) none) ∧
          w.FirstByRoleIdAndEtcdServerIdAndType user.RoleId cfg.EtcdId (opType r.Method) = none) := by
  obtain ⟨c, hc, h⟩ := serve_cases w r
  refine ⟨c, hc, ?_⟩
  rcases h with ⟨h1, h2⟩ | ⟨val, user, cfg, hs, hu, hq, hcfg, htake, htail⟩
  · exact ⟨fun i cfg cl e hi => absurd (List.getElem?_mem hi) (h1 cfg cl e),
      fun i cl hi => absurd (List.getElem?_mem hi) (h2 cl)⟩
  · have hid : cfg.EtcdId = int32 (Atoi r.EtcdID).1 := by rw [hcfg]; rfl
    have htr : c.trace = c.trace.take 4 ++ c.trace.drop 4 := (List.take_append_drop 4 _).symm
    rw [htake] at htr
    rcases hf : w.NewClientByConfig cfg with ⟨cl0, err0⟩
    rw [hf] at htr htail
    simp only at htr htail
    constructor
    · intro i cfg1 cl e hi
      refine ⟨val, user, 1, ?_⟩
      rcases htail with ht | ⟨_, ht | ht⟩ <;> rw [ht] at htr <;> rw [htr] at hi ⊢ <;>
        rcases i with _ | _ | _ | _ | _ | _ | i <;> simp at hi <;>
        (obtain ⟨rfl, -, -⟩ := hi; simp [hs, hu, hid, hq])
    · intro i cl hi
      refine ⟨val, user, cfg, 3, 1, by decide, ?_⟩
      rcases htail with ht | ⟨he, ht | ht⟩ <;> rw [ht] at htr <;> rw [htr] at hi ⊢ <;>
        rcases i with _ | _ | _ | _ | _ | _ | i <;> simp at hi <;>
        (subst hi; subst he; simp [hs, hu, hid, hq, hf])

/-- C1 at a concrete request: GET /v1/keys on cluster 5 with every grant stored; the factory
call at position 3 of the trace is preceded by the granted permission query for cluster 5. -/
theorem C1_client_only_after_grant_witness :
    ∃ c, serve envGrantAll (req "/v1/keys" "GET" "5") = some c ∧
      c.trace[3]? = some (Event.newClient (config0 5) (some 1) none) ∧
      ∃ role, ∃ j : Nat, j < 3 ∧ c.trace[j]? = some (Event.permQuery role 5 0 none) ∧
        envGrantAll.FirstByRoleIdAndEtcdServerIdAndType role 5 0 = none := by
  obtain ⟨c, hc, h1, -⟩ := C1_client_only_after_grant envGrantAll (req "/v1/keys" "GET" "5")
  have htr : (serve envGrantAll (req "/v1/keys" "GET" "5")).map (fun c => c.trace) =
      some [Event.cacheGet (bytes "login:tok"), Event.permQuery 7 5 0 none, Event.firstById 5,
        Event.newClient (config0 5) (some 1) none, Event.handler (some (some 1)),
        Event.close (some 1)] := by decide
  rw [hc] at htr
  have htr2 : c.trace = _ := Option.some.inj htr
  have h3 : c.trace[3]? = some (Event.newClient (config0 5) (some 1) none) := by
    rw [htr2]
    rfl
  obtain ⟨val, user, j, hj, -, -, hq, hg⟩ := h1 3 _ _ _ h3
  exact ⟨c, hc, h3, user.RoleId, j, hj, hq, hg⟩

/-- C3: an authenticated request on a non-exempt path with a non-zero EtcdID whose permission
query reports `gorm.ErrRecordNotFound` gets status 400 with body {"msg":"无权限进行此操作"}, the
chain is aborted, the route handler is not dispatched, and neither `FirstById` nor
`NewClientByConfig` is called. -/
theorem C3_no_grant_forbidden (w : Env) (r : Request) (val : GoString) (user : UsersModel)
    (path : GoString) (hparse : w.ParseRequestURI r.RequestURI = some path)
    (hpath : clientExempt path = false) (htok : r.Token ≠ [])
    (hs : w.cacheGet (w.GetLoginKey r.Token) = some val)
    (hu : w.jsonUnmarshal val = some user)
    (hid : r.EtcdID ≠ []) (hnum : (Atoi r.EtcdID).1 ≠ 0)
    (hnf : w.FirstByRoleIdAndEtcdServerIdAndType user.RoleId (clusterId r) (opType r.Method)
      = some DbError.ErrRecordNotFound) :
    ∃ c, serve w r = some c ∧ c.status = 400 ∧ c.body = [Chunk.jsonMsg "无权限进行此操作"] ∧
      c.IsAborted = true ∧
      (∀ cl, Event.handler cl ∉ c.trace) ∧
      (∀ id, Event.firstById id ∉ c.trace) ∧
      (∀ cfg cl e, Event.newClient cfg cl e ∉ c.trace) := by
  obtain ⟨c, hc, hst, -, hb, hab, htr⟩ := serve_denied w r val user _ path hparse hpath htok hs hu hid hnum hnf
  refine ⟨c, hc, hst, by simpa using hb, hab, ?_, ?_, ?_⟩ <;> simp [htr]

/-- C3 at a concrete request: role 7 has no grant on cluster 5. -/
theorem C3_no_grant_forbidden_witness :
    ∃ c, serve envNoGrant (req "/v1/keys" "GET" "5") = some c ∧ c.status = 400 ∧
      c.body = [Chunk.jsonMsg "无权限进行此操作"] ∧ c.IsAborted = true ∧
      (∀ cl, Event.handler cl ∉ c.trace) ∧
      (∀ id, Event.firstById id ∉ c.trace) ∧
      (∀ cfg cl e, Event.newClient cfg cl e ∉ c.trace) :=
  C3_no_grant_forbidden envNoGrant (req "/v1/keys" "GET" "5") (bytes "session-of-admin") user0
    (bytes "/v1/keys") (by decide) (by decide) (by decide) (by decide) (by decide) (by decide) (by decide) (by decide)

/-- C8: when a request has passed authorization and `NewClientByConfig` returns the error `e`,
the response is status 400 with body {"msg": e} and the route handler is never dispatched. -/
theorem C8_connect_failure (w : Env) (r : Request) (val : GoString) (user : UsersModel)
    (e : String)
    (path : GoString) (hparse : w.ParseRequestURI r.RequestURI = some path)
    (hpath : clientExempt path = false) (htok : r.Token ≠ [])
    (hs : w.cacheGet (w.GetLoginKey r.Token) = some val)
    (hu : w.jsonUnmarshal val = some user)
    (hid : r.EtcdID ≠ []) (hnum : (Atoi r.EtcdID).1 ≠ 0)
    (hq : w.FirstByRoleIdAndEtcdServerIdAndType user.RoleId (clusterId r) (opType r.Method)
      = none)
    (herr : (w.NewClientByConfig (boundConfig w r)).2 = some e) :
    ∃ c, serve w r = some c ∧ c.status = 400 ∧ c.body = [Chunk.jsonMsg e] ∧
      c.IsAborted = true ∧ (∀ cl, Event.handler cl ∉ c.trace) := by
  obtain ⟨c, hc, htake, hfail, -⟩ := serve_granted w r val user path hparse hpath htok hs hu hid hnum hq
  obtain ⟨hst, -, hb, hab, hdrop⟩ := hfail e herr
  refine ⟨c, hc, hst, hb, hab, ?_⟩
  intro cl
  rw [← List.take_append_drop 4 c.trace, htake, hdrop]
  simp

/-- C8 at a concrete request: the factory fails with "dial tcp: connection refused". -/
theorem C8_connect_failure_witness :
    ∃ c, serve envDialFail (req "/v1/keys" "GET" "5") = some c ∧ c.status = 400 ∧
      c.body = [Chunk.jsonMsg "dial tcp: connection refused"] ∧
      c.IsAborted = true ∧ (∀ cl, Event.handler cl ∉ c.trace) :=
  C8_connect_failure envDialFail (req "/v1/keys" "GET" "5") (bytes "session-of-admin") user0
    "dial tcp: connection refused" (bytes "/v1/keys") (by decide)
    (by decide) (by decide) (by decide) (by decide) (by decide) (by decide) (by decide)
    (by decide)

/-- C2: a request that passes authorization and whose route handler panics inside `c.Next()`:
`NewClientByConfig` is called once and returns client 1, and `Close` is never called, because
the `defer` of lines 213-219 is registered only after `c.Next()` has returned. -/
theorem C2_no_close_when_handler_panics :
    (serve envPanic (req "/v1/keys" "GET" "5")).map (fun c => (c.trace, c.panicked)) =
      some ([Event.cacheGet (bytes "login:tok"), Event.permQuery 7 5 0 none, Event.firstById 5,
        Event.newClient (config0 5) (some 1) none, Event.handler (some (some 1))], true) := by
  decide

/-- C7: with the header `EtcdID: 99999999999999999999x`, which is not a decimal integer,
`strconv.Atoi` returns 9223372036854775807 with a range error that line 145 discards; the
request is not rejected: the permission query, the registry and the factory are called with
cluster id -1 and the route handler answers 200. -/
theorem C7_overflowing_selector_passes :
    Atoi (bytes "99999999999999999999x") = (9223372036854775807, some NumError.ErrRange) ∧
    (serve envGrantAll (req "/v1/x" "GET" "99999999999999999999x")).map
        (fun c => (c.status, c.trace)) =
      some (200, [Event.cacheGet (bytes "login:tok"), Event.permQuery 7 (-1) 0 none,
        Event.firstById (-1), Event.newClient (config0 (-1)) (some 1) none,
        Event.handler (some (some 1)), Event.close (some 1)]) := by
  decide

/-- C10: when `NewClientByConfig` returns a nil client and an error, the error branch of lines
202-208 does not return; after the 400 response the deferred function calls `Close` on the nil
client, which panics. -/
theorem C10_close_on_nil_client :
    (serve envDialFail (req "/v1/keys" "GET" "5")).map
        (fun c => (c.status, c.trace, c.panicked)) =
      some (400, [Event.cacheGet (bytes "login:tok"), Event.permQuery 7 5 0 none,
        Event.firstById 5,
        Event.newClient (config0 5) none (some "dial tcp: connection refused"),
        Event.close none], true) := by
  decide

/-- When the request URI parses to a path outside the three prefixes of line 81,
`middlewareAuth` answers 401 with an empty body and aborts the chain when the Token header is
empty, or the session cache has no entry for `GetLoginKey(token)`, or the stored value does not
parse; otherwise it stores the parsed user under "userinfo" and does not abort. -/
theorem auth_unauthorized_of_parsed (w : Env) (r : Request) (path : GoString)
    (hparse : w.ParseRequestURI r.RequestURI = some path) (hpath : authRequired path = true) :
    ((r.Token = [] ∨ w.cacheGet (w.GetLoginKey r.Token) = none ∨
        ∃ val, w.cacheGet (w.GetLoginKey r.Token) = some val ∧ w.jsonUnmarshal val = none) →
      ∃ c, serve w r = some c ∧ c.status = 401 ∧ c.written = true ∧ c.body = [] ∧
        c.IsAborted = true ∧ c.userinfo = none ∧
        ∀ ev ∈ c.trace, ev = Event.cacheGet (w.GetLoginKey r.Token)) ∧
    (∀ val user, r.Token ≠ [] → w.cacheGet (w.GetLoginKey r.Token) = some val →
      w.jsonUnmarshal val = some user →
      ∀ next c0, ∃ c1, middlewareAuth w r next c0 = some c1 ∧ c1.userinfo = some user ∧
        c1.IsAborted = c0.IsAborted ∧ c1.status = c0.status ∧ c1.written = c0.written ∧
        c1.body = c0.body) := by
  constructor
  · intro h
    by_cases htok : r.Token = []
    · simp [serve, Next, nextLoop, chain, hparse, middlewareAuth, hpath, htok, Context.reset,
        Context.AbortWithStatus, Context.Abort, Context.Status, Context.IsAborted, abortIndex]
    · rcases h with h | h | ⟨val, h1, h2⟩
      · exact absurd h htok
      · simp [serve, Next, nextLoop, chain, hparse, middlewareAuth, hpath, htok, h,
          Context.reset, Context.emit, Context.AbortWithStatus, Context.Abort, Context.Status,
          Context.IsAborted, abortIndex]
      · simp [serve, Next, nextLoop, chain, hparse, middlewareAuth, hpath, htok, h1, h2,
          Context.reset, Context.emit, Context.AbortWithStatus, Context.Abort, Context.Status,
          Context.IsAborted, abortIndex]
  · intro val user htok hs hu next c0
    simp [middlewareAuth, hparse, hpath, htok, hs, hu, Context.emit, Context.IsAborted]

/-- C4: the request CONNECT 127.0.0.1:443 without a Token header is under no exempt prefix, yet
`middlewareAuth` does not answer 401: `url.ParseRequestURI` rejects the URI, line 80 discards
the error, and line 81 reads `u.Path` on the nil `u`, which panics before anything is written. -/
theorem C4_unparsed_uri_panics :
    (serve envGrantAll ⟨bytes "127.0.0.1:443", bytes "CONNECT", [], []⟩).map
        (fun c => (c.status, c.written, c.IsAborted, c.panicked, c.trace)) =
      some (200, false, false, true, []) := by
  decide

/-- C5 as stated fails on the cluster-record prefix: GET /v1/server/list without a Token is
aborted with 401 by `middlewareAuth`, and with a Token the session cache is queried. -/
theorem C5_server_prefix_needs_identity :
    HasPrefix (bytes "/v1/server/list") (bytes "/v1/server") = true ∧
    (serve envGrantAll (reqNoToken "/v1/server/list" "GET" "")).map
        (fun c => (c.status, c.IsAborted, c.trace)) = some (401, true, []) ∧
    (serve envGrantAll (req "/v1/server/list" "GET" "")).map (fun c => c.trace) =
      some [Event.cacheGet (bytes "login:tok"), Event.handler none] := by
  decide

set_option maxHeartbeats 4000000 in
/-- C5, amended: with `path` the path of the parsed request URI. Under /v1/passport, /ui and
/v1/upload, whatever the Token and EtcdID headers, the two middlewares call no collaborator and
the route handler is dispatched (without client). Under /v1/server no permission query, registry
lookup or factory call is made and no client is put in context, but identity resolution
applies: an empty Token is answered 401 without any lookup; otherwise the session cache is
looked up, a missing or unparsable session is answered 401, and a resolved one lets the route
handler be dispatched without client. -/
theorem C5_exempt_prefixes (w : Env) (r : Request) (path : GoString)
    (hparse : w.ParseRequestURI r.RequestURI = some path) :
    ((HasPrefix path (bytes "/v1/passport") = true ∨ HasPrefix path (bytes "/ui") = true ∨
        HasPrefix path (bytes "/v1/upload") = true) →
      ∃ c, serve w r = some c ∧ c.trace = [Event.handler none]) ∧
    (HasPrefix path (bytes "/v1/server") = true →
      ∃ c, serve w r = some c ∧
        (∀ role id typ err, Event.permQuery role id typ err ∉ c.trace) ∧
        (∀ id, Event.firstById id ∉ c.trace) ∧
        (∀ cfg cl e, Event.newClient cfg cl e ∉ c.trace) ∧
        (∀ cl, Event.handler (some cl) ∉ c.trace) ∧
        (r.Token = [] →
          c.status = 401 ∧ c.body = [] ∧ c.IsAborted = true ∧ c.trace = []) ∧
        (r.Token ≠ [] →
          (w.cacheGet (w.GetLoginKey r.Token) = none ∨
            ∃ val, w.cacheGet (w.GetLoginKey r.Token) = some val ∧ w.jsonUnmarshal val = none) →
          c.status = 401 ∧ c.body = [] ∧ c.IsAborted = true ∧
          c.trace = [Event.cacheGet (w.GetLoginKey r.Token)]) ∧
        (∀ val user, r.Token ≠ [] → w.cacheGet (w.GetLoginKey r.Token) = some val →
          w.jsonUnmarshal val = some user →
          c.trace = [Event.cacheGet (w.GetLoginKey r.Token), Event.handler none])) := by
  constructor
  · intro h
    have ha : authRequired path = false := by
      unfold authRequired
      rcases h with h | h | h <;> simp [h]
    have hp : clientExempt path = true := by
      unfold clientExempt
      rcases h with h | h | h <;> simp [h]
    cases hh : w.handler none none <;>
      simp [serve, Next, nextLoop, chain, hparse, middlewareAuth, middlewareEtcdClient,
        routeHandler, ha, hp, hh, Context.reset, Context.emit, Context.write, Context.Abort,
        Context.Status, abortIndex]
  · intro h
    have hp : clientExempt path = true := by
      unfold clientExempt
      simp [h]
    have ha : authRequired path = true := authRequired_of_server_prefix path h
    by_cases htok : r.Token = []
    · simp [serve, Next, nextLoop, chain, hparse, middlewareAuth, ha, htok, Context.reset,
        Context.AbortWithStatus, Context.Abort, Context.Status, Context.IsAborted, abortIndex]
    · cases hs : w.cacheGet (w.GetLoginKey r.Token) with
      | none =>
        simp [serve, Next, nextLoop, chain, hparse, middlewareAuth, ha, htok, hs,
          Context.reset, Context.emit, Context.AbortWithStatus, Context.Abort, Context.Status,
          Context.IsAborted, abortIndex]
      | some val =>
        cases hu : w.jsonUnmarshal val with
        | none =>
          simp [serve, Next, nextLoop, chain, hparse, middlewareAuth, ha, htok, hs, hu,
            Context.reset, Context.emit, Context.AbortWithStatus, Context.Abort,
            Context.Status, Context.IsAborted, abortIndex]
          rintro v user rfl
          simp [hu]
        | some user =>
          cases hh : w.handler (some user) none <;>
            simp [serve, Next, nextLoop, chain, hparse, middlewareAuth, middlewareEtcdClient,
              routeHandler, ha, hp, htok, hs, hu, hh, Context.reset, Context.emit,
              Context.write, Context.Abort, Context.Status, abortIndex]

/-- C5, amended, at concrete requests: GET /ui/index.html without Token, DELETE
/v1/server/other without Token, and POST /v1/server/list with the token "tok". -/
theorem C5_exempt_prefixes_witness :
    (∃ c, serve envNoGrant (reqNoToken "/ui/index.html" "GET" "abc") = some c ∧
        c.trace = [Event.handler none]) ∧
    (∃ c, serve envNoGrant (reqNoToken "/v1/server/other" "DELETE" "5") = some c ∧
        c.status = 401 ∧ c.body = [] ∧ c.IsAborted = true ∧ c.trace = []) ∧
    (∃ c, serve envNoGrant (req "/v1/server/list" "POST" "5") = some c ∧
        c.trace = [Event.cacheGet (bytes "login:tok"), Event.handler none]) := by
  refine ⟨(C5_exempt_prefixes envNoGrant (reqNoToken "/ui/index.html" "GET" "abc")
      (bytes "/ui/index.html") (by decide)).1 (Or.inr (Or.inl (by decide))), ?_, ?_⟩
  · obtain ⟨c, hc, -, -, -, -, h0, -, -⟩ :=
      (C5_exempt_prefixes envNoGrant (reqNoToken "/v1/server/other" "DELETE" "5")
        (bytes "/v1/server/other") (by decide)).2 (by decide)
    exact ⟨c, hc, h0 (by decide)⟩
  · obtain ⟨c, hc, -, -, -, -, -, -, h2⟩ :=
      (C5_exempt_prefixes envNoGrant (req "/v1/server/list" "POST" "5")
        (bytes "/v1/server/list") (by decide)).2 (by decide)
    exact ⟨c, hc, h2 (bytes "session-of-admin") user0 (by decide) (by decide) (by decide)⟩

/-- C6: for a request that reaches the authorization step, the permission query is made with
type 0 exactly when the method is "GET" and with type 1 for every other method; so with only
the type-0 grant stored for (role, cluster) a GET goes on to the factory and any other method
is rejected with 400, and with only the type-1 grant the other way round. -/
theorem C6_operation_class (w : Env) (r : Request) (val : GoString) (user : UsersModel)
    (path : GoString) (hparse : w.ParseRequestURI r.RequestURI = some path)
    (hpath : clientExempt path = false) (htok : r.Token ≠ [])
    (hs : w.cacheGet (w.GetLoginKey r.Token) = some val)
    (hu : w.jsonUnmarshal val = some user)
    (hid : r.EtcdID ≠ []) (hnum : (Atoi r.EtcdID).1 ≠ 0) :
    ∃ c, serve w r = some c ∧
      (∃ err, c.trace[1]? = some (Event.permQuery user.RoleId (clusterId r)
        (if r.Method = bytes "GET" then 0 else 1) err)) ∧
      (∀ role id typ err, Event.permQuery role id typ err ∈ c.trace →
        (typ = 0 ↔ r.Method = bytes "GET") ∧ (typ = 1 ↔ r.Method ≠ bytes "GET")) ∧
      ((w.FirstByRoleIdAndEtcdServerIdAndType user.RoleId (clusterId r) 0 = none ∧
          w.FirstByRoleIdAndEtcdServerIdAndType user.RoleId (clusterId r) 1 =
            some DbError.ErrRecordNotFound) →
        (r.Method = bytes "GET" → ∃ cl e, Event.newClient (boundConfig w r) cl e ∈ c.trace) ∧
        (r.Method ≠ bytes "GET" → c.status = 400 ∧
          c.body = [Chunk.jsonMsg "无权限进行此操作"] ∧
          ∀ cfg cl e, Event.newClient cfg cl e ∉ c.trace)) ∧
      ((w.FirstByRoleIdAndEtcdServerIdAndType user.RoleId (clusterId r) 1 = none ∧
          w.FirstByRoleIdAndEtcdServerIdAndType user.RoleId (clusterId r) 0 =
            some DbError.ErrRecordNotFound) →
        (r.Method ≠ bytes "GET" → ∃ cl e, Event.newClient (boundConfig w r) cl e ∈ c.trace) ∧
        (r.Method = bytes "GET" → c.status = 400 ∧
          c.body = [Chunk.jsonMsg "无权限进行此操作"] ∧
          ∀ cfg cl e, Event.newClient cfg cl e ∉ c.trace)) := by
  have hop : opType r.Method = if r.Method = bytes "GET" then 0 else 1 := rfl
  have hop0 : r.Method = bytes "GET" → opType r.Method = 0 := fun h => by simp [opType, h]
  have hop1 : r.Method ≠ bytes "GET" → opType r.Method = 1 := fun h => by simp [opType, h]
  cases hq : w.FirstByRoleIdAndEtcdServerIdAndType user.RoleId (clusterId r) (opType r.Method) with
  | some e =>
    obtain ⟨c, hc, hst, -, hb, -, htr⟩ :=
      serve_denied w r val user e path hparse hpath htok hs hu hid hnum hq
    refine ⟨c, hc, ⟨some e, by simp [htr, hop]⟩, ?_, ?_, ?_⟩
    · intro role id typ err hmem
      simp [htr, hop] at hmem
      obtain ⟨-, -, rfl, -⟩ := hmem
      by_cases hm : r.Method = bytes "GET" <;> simp [hm]
    · rintro ⟨h0, h1⟩
      by_cases hm : r.Method = bytes "GET"
      · rw [hop0 hm, h0] at hq
        cases hq
      · rw [hop1 hm, h1] at hq
        cases hq
        refine ⟨fun h => absurd h hm, fun _ => ⟨hst, by simpa using hb, ?_⟩⟩
        simp [htr]
    · rintro ⟨h1, h0⟩
      by_cases hm : r.Method = bytes "GET"
      · rw [hop0 hm, h0] at hq
        cases hq
        refine ⟨fun h => absurd hm h, fun _ => ⟨hst, by simpa using hb, ?_⟩⟩
        simp [htr]
      · rw [hop1 hm, h1] at hq
        cases hq
  | none =>
    obtain ⟨c, hc, htake, -, -⟩ := serve_granted w r val user path hparse hpath htok hs hu hid hnum hq
    obtain ⟨c2, hc2, hcases⟩ := serve_cases w r
    have hcc : c2 = c := by rw [hc] at hc2; exact (Option.some.inj hc2).symm
    subst hcc
    have htr : c2.trace = c2.trace.take 4 ++ c2.trace.drop 4 := (List.take_append_drop 4 _).symm
    have hnew : ∃ cl e, Event.newClient (boundConfig w r) cl e ∈ c2.trace := by
      refine ⟨(w.NewClientByConfig (boundConfig w r)).1,
        (w.NewClientByConfig (boundConfig w r)).2, ?_⟩
      rw [htr, htake]
      simp
    have hdrop : ∀ role id typ err, Event.permQuery role id typ err ∉ c2.trace.drop 4 := by
      intro role id typ err
      rcases hcases with ⟨h1, -⟩ | ⟨_, _, _, _, _, _, _, _, ht | ⟨_, ht | ht⟩⟩
      · obtain ⟨cl, e, hmem⟩ := hnew
        exact absurd hmem (h1 _ _ _)
      all_goals simp [ht]
    refine ⟨c2, hc, ⟨none, ?_⟩, ?_, ?_, ?_⟩
    · have h1 : c2.trace[1]? = (c2.trace.take 4)[1]? := by
        rw [List.getElem?_take_of_lt (by decide)]
      rw [h1, htake, ← hop]
      rfl
    · intro role id typ err hmem
      rw [htr, List.mem_append] at hmem
      rcases hmem with hmem | hmem
      · simp [htake, hop] at hmem
        obtain ⟨-, -, rfl, -⟩ := hmem
        by_cases hm : r.Method = bytes "GET" <;> simp [hm]
      · exact absurd hmem (hdrop _ _ _ _)
    · rintro ⟨h0, h1⟩
      by_cases hm : r.Method = bytes "GET"
      · exact ⟨fun _ => hnew, fun h => absurd hm h⟩
      · rw [hop1 hm, h1] at hq
        cases hq
    · rintro ⟨h1, h0⟩
      by_cases hm : r.Method = bytes "GET"
      · rw [hop0 hm, h0] at hq
        cases hq
      · exact ⟨fun _ => hnew, fun h => absurd h hm⟩

/-- C6 at a concrete request: POST /v1/keys on cluster 5 by role 7, which holds only the
type-0 grant there. -/
theorem C6_operation_class_witness :
    ∃ c, serve (envOnly 0) (req "/v1/keys" "POST" "5") = some c ∧
      (∃ err, c.trace[1]? = some (Event.permQuery 7 5 1 err)) ∧
      c.status = 400 ∧ c.body = [Chunk.jsonMsg "无权限进行此操作"] ∧
      ∀ cfg cl e, Event.newClient cfg cl e ∉ c.trace := by
  obtain ⟨c, hc, hq, -, hread, -⟩ :=
    C6_operation_class (envOnly 0) (req "/v1/keys" "POST" "5") (bytes "session-of-admin") user0
      (bytes "/v1/keys") (by decide) (by decide) (by decide) (by decide) (by decide) (by decide) (by decide)
  exact ⟨c, hc, hq, (hread ⟨by decide, by decide⟩).2 (by decide)⟩

/-- C9 as stated fails: with `EtcdID: -1` the request is not rejected, and the permission query,
the registry and the factory receive cluster id -1; with `EtcdID: 4294967297` they receive 1. -/
theorem C9_negative_selector_passes :
    Atoi (bytes "-1") = (-1, none) ∧
    (serve envGrantAll (req "/v1/keys" "GET" "-1")).map (fun c => (c.status, c.trace)) =
      some (200, [Event.cacheGet (bytes "login:tok"), Event.permQuery 7 (-1) 0 none,
        Event.firstById (-1), Event.newClient (config0 (-1)) (some 1) none,
        Event.handler (some (some 1)), Event.close (some 1)]) ∧
    (serve envGrantAll (req "/v1/keys" "GET" "4294967297")).map (fun c => (c.status, c.trace)) =
      some (200, [Event.cacheGet (bytes "login:tok"), Event.permQuery 7 1 0 none,
        Event.firstById 1, Event.newClient (config0 1) (some 1) none,
        Event.handler (some (some 1)), Event.close (some 1)]) := by
  decide

/-- C9, amended: for an authenticated request on a non-exempt path with a non-empty EtcdID
header, if `strconv.Atoi` yields 0 the request is rejected with 400 and body
{"msg":"请选择Etcd服务"} before any permission, registry or factory call; if it yields a non-zero
`n` within the int32 range (negative values included) the permission query is made with cluster
id `n`, and every registry lookup and every factory config of the run carries exactly `n`. -/
theorem C9_selector_amended (w : Env) (r : Request) (val : GoString) (user : UsersModel)
    (path : GoString) (hparse : w.ParseRequestURI r.RequestURI = some path)
    (hpath : clientExempt path = false) (htok : r.Token ≠ [])
    (hs : w.cacheGet (w.GetLoginKey r.Token) = some val)
    (hu : w.jsonUnmarshal val = some user)
    (hid : r.EtcdID ≠ []) :
    ((Atoi r.EtcdID).1 = 0 →
      ∃ c, serve w r = some c ∧ c.status = 400 ∧ c.body = [Chunk.jsonMsg "请选择Etcd服务"] ∧
        c.IsAborted = true ∧ c.trace = [Event.cacheGet (w.GetLoginKey r.Token)]) ∧
    (∀ n : Int, (Atoi r.EtcdID).1 = n → n ≠ 0 → -2 ^ 31 ≤ n → n < 2 ^ 31 →
      ∃ c, serve w r = some c ∧
        (∃ err, c.trace[1]? = some (Event.permQuery user.RoleId n (opType r.Method) err)) ∧
        (∀ role id typ err, Event.permQuery role id typ err ∈ c.trace → id = n) ∧
        (∀ id, Event.firstById id ∈ c.trace → id = n) ∧
        (∀ cfg cl e, Event.newClient cfg cl e ∈ c.trace → cfg.EtcdId = n) ∧
        (w.FirstByRoleIdAndEtcdServerIdAndType user.RoleId n (opType r.Method) = none →
          Event.firstById n ∈ c.trace ∧
          ∃ cfg cl e, Event.newClient cfg cl e ∈ c.trace ∧ cfg.EtcdId = n)) := by
  have ha := authRequired_of_not_clientExempt _ hpath
  constructor
  · intro hz
    simp [serve, Next, nextLoop, chain, hparse, middlewareAuth, middlewareEtcdClient,
      ha, hpath, htok, hs, hu, hid, hz, Context.reset, Context.emit, Context.JSON,
      Context.Abort, Context.Status, Context.IsAborted, abortIndex]
  · intro n hn hnz hlo hhi
    have hnum : (Atoi r.EtcdID).1 ≠ 0 := by rw [hn]; exact hnz
    have hcl : clusterId r = n := by
      unfold clusterId
      rw [hn]
      exact int32_of_range n hlo hhi
    have hcfg : (boundConfig w r).EtcdId = n := hcl
    cases hq : w.FirstByRoleIdAndEtcdServerIdAndType user.RoleId (clusterId r)
        (opType r.Method) with
    | some e =>
      obtain ⟨c, hc, -, -, -, -, htr⟩ :=
        serve_denied w r val user e path hparse hpath htok hs hu hid hnum hq
      rw [hcl] at htr hq
      refine ⟨c, hc, ⟨some e, by simp [htr]⟩, ?_, ?_, ?_, ?_⟩
      · intro role id typ err hmem
        simp [htr] at hmem
        exact hmem.2.1
      · intro id hmem
        simp [htr] at hmem
      · intro cfg cl e1 hmem
        simp [htr] at hmem
      · intro hg
        rw [hg] at hq
        cases hq
    | none =>
      obtain ⟨c, hc, htake, hfail, hok⟩ :=
        serve_granted w r val user path hparse hpath htok hs hu hid hnum hq
      have htr : c.trace = c.trace.take 4 ++ c.trace.drop 4 := (List.take_append_drop 4 _).symm
      have hdrop : c.trace.drop 4 = [Event.close (w.NewClientByConfig (boundConfig w r)).1] ∨
          c.trace.drop 4 = [Event.handler (some (w.NewClientByConfig (boundConfig w r)).1)] ∨
          c.trace.drop 4 = [Event.handler (some (w.NewClientByConfig (boundConfig w r)).1),
            Event.close (w.NewClientByConfig (boundConfig w r)).1] := by
        cases he : (w.NewClientByConfig (boundConfig w r)).2 with
        | some e => exact Or.inl (hfail e he).2.2.2.2
        | none => exact Or.inr (hok he)
      rw [hcl] at htake
      refine ⟨c, hc, ⟨none, ?_⟩, ?_, ?_, ?_, ?_⟩
      · have h1 : c.trace[1]? = (c.trace.take 4)[1]? := by
          rw [List.getElem?_take_of_lt (by decide)]
        rw [h1, htake]
        rfl
      · intro role id typ err hmem
        rw [htr, htake] at hmem
        rcases hdrop with hd | hd | hd <;> rw [hd] at hmem <;> simp at hmem <;> exact hmem.2.1
      · intro id hmem
        rw [htr, htake] at hmem
        rcases hdrop with hd | hd | hd <;> rw [hd] at hmem <;> simp at hmem <;> exact hmem
      · intro cfg cl e1 hmem
        rw [htr, htake] at hmem
        rcases hdrop with hd | hd | hd <;> rw [hd] at hmem <;> simp at hmem <;>
          (rw [hmem.1]; exact hcfg)
      · intro _
        constructor
        · rw [htr, htake]
          simp
        · refine ⟨boundConfig w r, (w.NewClientByConfig (boundConfig w r)).1,
            (w.NewClientByConfig (boundConfig w r)).2, ?_, hcfg⟩
          rw [htr, htake]
          simp

/-- C9, amended, at concrete requests: `EtcdID: 0` and `EtcdID: -1` with every grant stored. -/
theorem C9_selector_amended_witness :
    (∃ c, serve envGrantAll (req "/v1/keys" "GET" "0") = some c ∧ c.status = 400 ∧
        c.body = [Chunk.jsonMsg "请选择Etcd服务"] ∧ c.IsAborted = true ∧
        c.trace = [Event.cacheGet (bytes "login:tok")]) ∧
    (∃ c, serve envGrantAll (req "/v1/keys" "GET" "-1") = some c ∧
        (∃ err, c.trace[1]? = some (Event.permQuery 7 (-1) 0 err)) ∧
        (∀ role id typ err, Event.permQuery role id typ err ∈ c.trace → id = -1) ∧
        (∀ id, Event.firstById id ∈ c.trace → id = -1) ∧
        (∀ cfg cl e, Event.newClient cfg cl e ∈ c.trace → cfg.EtcdId = -1) ∧
        (envGrantAll.FirstByRoleIdAndEtcdServerIdAndType 7 (-1) 0 = none →
          Event.firstById (-1) ∈ c.trace ∧
          ∃ cfg cl e, Event.newClient cfg cl e ∈ c.trace ∧ cfg.EtcdId = -1)) :=
  ⟨(C9_selector_amended envGrantAll (req "/v1/keys" "GET" "0") (bytes "session-of-admin") user0
      (bytes "/v1/keys") (by decide) (by decide) (by decide) (by decide) (by decide) (by decide)).1 (by decide),
    (C9_selector_amended envGrantAll (req "/v1/keys" "GET" "-1") (bytes "session-of-admin") user0
      (bytes "/v1/keys") (by decide) (by decide) (by decide) (by decide) (by decide) (by decide)).2 (-1) (by decide)
      (by decide) (by decide) (by decide)⟩

end EtcdManage
